import Mathlib

/-!
Shallow embedding of the kafka-nas-s3-transfer pipeline.

The definitions below translate, function by function, the parts of the
repository that the verified claims are about:

* `validate_message`, `build_nas_path`, `process_message` translate
  `src/services/file_transfer_service.py` (`FileTransferService._validate_message`,
  `FileTransferService._build_nas_path`, `FileTransferService.process_message`);
* `build_s3_path`, `firstToken`, `parseDate` translate
  `src/storage/s3_client.py` (`S3Client.build_s3_path`, including Python's
  `str.split()[0]` and `datetime.strptime(_, "%Y-%m-%d")` as used there);
* `is_processed`, `mark_processed` translate `src/database/redis_client.py`
  (`RedisClient.is_processed` / `RedisClient.mark_processed`);
* `consume_step` translates the fate of one polled record in the
  consumption loop of `src/kafka/consumer.py`
  (`KafkaMessageConsumer.consume_and_process`), including where the
  `value_deserializer` actually runs (inside `poll()`).

External effects are made explicit: the outcomes of the fetch and upload
statements, `tempfile.mkdtemp` and the SingleStore writes are inputs in an
`Environment` record, and `process_message` returns a `Result` record listing
its verdict together with the calls it performed (tracker writes, gateway
calls, dedup-ledger calls, staging-directory lifecycle).

A load-bearing fact of the staged source: `process_message` calls
`self._nas.copy_file_to_local(...)` and `self._s3.upload_from_file(...)`, but
`NasClient` defines no `copy_file_to_local` (only `download_file`) and
`S3Client` defines no `upload_from_file` (only `upload_file`).  At run time
the fetch statement therefore always raises `AttributeError` at the attribute
lookup — before any NAS operation — and the upload statement is dead code.
The outcome types below keep the branches the handler structure is written to
distinguish, and record which of them the program can realize.

String helpers are implemented over `List Char` by structural recursion so
that every definition evaluates inside the kernel.
-/

/-- An inbound Kafka message, decoded as a JSON object.  A field holds `none`
when the key is absent from the object, mirroring Python's `dict.get`
returning `None`. -/
structure Message where
  MESSAGE_ID : Option String
  EVENT_TYPE : Option String
  ST_BOM_DOC_PATH : Option String
  ST_BOM_FILE_NAME : Option String
  ST_BOM_TYPE : Option String
  IS_COSTED : Option String
  OLP_PHASE : Option String
  EVENT_TIMESTAMP : Option String
  deriving DecidableEq

/-- Python truthiness of `message.get(field)`: false exactly when the field is
absent (`None`) or the empty string. -/
def truthy (v : Option String) : Bool :=
  !((v.getD "") == "")

/-- Translation of `FileTransferService._validate_message`: all four required fields must be
present and non-empty (the Python loop returns `False` at the first field
failing `message.get(field)` truthiness). -/
def validate_message (message : Message) : Bool :=
  truthy message.MESSAGE_ID && truthy message.EVENT_TYPE &&
    truthy message.ST_BOM_DOC_PATH && truthy message.ST_BOM_FILE_NAME

/-- Translation of `FileTransferService._build_nas_path`: replace `/` by `\`, append a
trailing `\` when missing, then append the file name. -/
def build_nas_path (message : Message) : String :=
  let doc_path : List Char :=
    ((message.ST_BOM_DOC_PATH.getD "").toList.map fun c => if c = '/' then '\\' else c)
  let doc_path : List Char :=
    if doc_path.getLast? = some '\\' then doc_path else doc_path ++ ['\\']
  ⟨doc_path ++ (message.ST_BOM_FILE_NAME.getD "").toList⟩

/-- A calendar date, as produced by `datetime.strptime(_, "%Y-%m-%d")` and
consumed by `strftime("%Y")/( "%m")/("%d")`. -/
structure Date where
  year : Nat
  month : Nat
  day : Nat
  deriving DecidableEq

/-- Day count of a month, with the Gregorian leap rule, matching the
validation `datetime` performs when `strptime` builds the date. -/
def daysInMonth (year month : Nat) : Nat :=
  if month = 2 then
    if year % 4 = 0 && (year % 100 != 0 || year % 400 = 0) then 29 else 28
  else if month = 4 || month = 6 || month = 9 || month = 11 then 30
  else 31

/-- Digits of a numeral to its value (the argument is all-digit by the guard
at every call site). -/
def digitsToNat (cs : List Char) : Nat :=
  cs.foldl (fun n c => n * 10 + (c.toNat - 48)) 0

/-- A numeric field of `strptime`: between `minLen` and `maxLen` digits
(CPython's regexes: `%Y` is exactly four digits, `%m` and `%d` are one or
two). -/
def parseNatField (minLen maxLen : Nat) (cs : List Char) : Option Nat :=
  if cs.length ≥ minLen && cs.length ≤ maxLen && cs.all (fun c => c.isDigit) then
    some (digitsToNat cs)
  else none

/-- Split a character list at every occurrence of `sep` (like
`str.split("-")`: empty pieces are kept). -/
def splitOnChar (sep : Char) : List Char → List (List Char)
  | [] => [[]]
  | c :: rest =>
    let r := splitOnChar sep rest
    if c = sep then [] :: r
    else
      match r with
      | [] => [[c]]
      | t :: ts => (c :: t) :: ts

/-- Model of `datetime.strptime(s, "%Y-%m-%d")` as used by `S3Client.build_s3_path`:
`%Y` is exactly 4 digits, `%m` and `%d` are 1-2 digits, the whole string must
be consumed, and `datetime` itself requires year ≥ 1, month in 1..12 and a day
valid for the month.  `none` models the `ValueError` the caller catches. -/
def parseDate (s : String) : Option Date :=
  match splitOnChar '-' s.toList with
  | [ys, ms, ds] =>
    match parseNatField 4 4 ys, parseNatField 1 2 ms, parseNatField 1 2 ds with
    | some y, some m, some d =>
      if 1 ≤ y && 1 ≤ m && m ≤ 12 && 1 ≤ d && d ≤ daysInMonth y m then
        some ⟨y, m, d⟩
      else none
    | _, _, _ => none
  | _ => none

/-- Python `s.split()[0]`: whitespace-separated tokens, first one; `none`
models the `IndexError` raised when the string is all whitespace (that error
is NOT caught inside `build_s3_path`). -/
def firstToken (s : String) : Option String :=
  let cs := s.toList.dropWhile fun c => c.isWhitespace
  match cs with
  | [] => none
  | _ => some ⟨cs.takeWhile fun c => !c.isWhitespace⟩

/-- Model of `strftime("%m")` and `strftime("%d")`: zero-padded to two digits. -/
def pad2 (n : Nat) : String :=
  if n < 10 then "0" ++ toString n else toString n

/-- Translation of `S3Client.build_s3_path`.  `folder_name` is the configured
`s3.folder_name` (source default `"dp03"`); `now` is the current date read by
`datetime.now()` on the fallback branch.  Returns `none` when the Python code
raises `IndexError` (whitespace-only `EVENT_TIMESTAMP`), otherwise the key
`{folder}/{EVENT_TYPE}/{ST_BOM_TYPE}/{IS_COSTED}/{OLP_PHASE}/{YYYY}/{MM}/{DD}/{file}`. -/
def build_s3_path (folder_name : String) (message : Message) (now : Date) :
    Option String :=
  let event_type := message.EVENT_TYPE.getD "UNKNOWN"
  let st_bom_type := message.ST_BOM_TYPE.getD "UNKNOWN"
  let is_costed := message.IS_COSTED.getD "UNKNOWN"
  let olp_phase := message.OLP_PHASE.getD "UNKNOWN"
  let file_name := message.ST_BOM_FILE_NAME.getD ""
  let timestamp_str := message.EVENT_TIMESTAMP.getD ""
  let key := fun (dt : Date) =>
    folder_name ++ "/" ++ event_type ++ "/" ++ st_bom_type ++ "/" ++ is_costed ++
      "/" ++ olp_phase ++ "/" ++ toString dt.year ++ "/" ++ pad2 dt.month ++
      "/" ++ pad2 dt.day ++ "/" ++ file_name
  if timestamp_str == "" then some (key now)
  else
    match firstToken timestamp_str with
    | none => none
    | some tok =>
      match parseDate tok with
      | some dt => some (key dt)
      | none => some (key now)

/-- Whether `EVENT_TIMESTAMP` pins the date partition of the key: present,
non-empty, and its first whitespace token parses as `%Y-%m-%d` with an
exactly-four-digit year (so `build_s3_path` never reads the clock; a token
such as 999-01-15 raises `ValueError` in Python and falls back to the
clock). -/
def ts_determinate (message : Message) : Bool :=
  let t := message.EVENT_TIMESTAMP.getD ""
  if t == "" then false
  else
    match firstToken t with
    | none => false
    | some tok => (parseDate tok).isSome

/-- Outcome of executing the statement
`local_file_path = self._nas.copy_file_to_local(nas_path, temp_dir)` as the
surrounding handlers distinguish it.  `NasClient` defines no
`copy_file_to_local`, so at run time the attribute lookup always raises
`AttributeError` before any NAS operation: `err` (an exception other than
`FileNotFoundError`, routed to the outer `except Exception`) is the only
outcome the staged program can realize.  `ok` and `notFound` are the other
branches the written handler structure distinguishes (the success
continuation and the dead `except FileNotFoundError` branch); they are kept
so that universally quantified theorems cover every written branch, and no
claim's conclusion rests on them alone. -/
inductive FetchOutcome
  | ok
  | notFound
  | err
  deriving DecidableEq

/-- Outcome of `self._s3.upload_from_file(local_file_path, s3_path)` as the
written `try/finally` distinguishes it.  `S3Client` defines no
`upload_from_file` (only `upload_file`), and the statement is dead code in
the staged program anyway: it is reachable only after a successful fetch,
which `FetchOutcome` shows cannot occur. -/
inductive UploadOutcome
  | ok
  | err
  deriving DecidableEq

/-- The external world of one `process_message` attempt: the configured
folder name, the current date, whether `tempfile.mkdtemp` succeeds, the fetch
and upload outcomes, the boolean results of the SingleStore writes
(`insert_created`, `update_processed`, `update_failed` catch their own
exceptions and return a bool), and the Redis dedup-ledger state
(availability plus the set of stored keys). -/
structure Environment where
  folderName : String
  now : Date
  mkdtempOk : Bool
  fetch : FetchOutcome
  upload : UploadOutcome
  insertOk : Bool
  updateProcessedOk : Bool
  updateFailedOk : Bool
  redisAvailable : Bool
  redisStore : List String
  deriving DecidableEq

/-- What one `process_message` call did: the returned verdict (`True` =
commit/ACK, `False` = no-commit/NACK), the number of calls to each tracker
write, the gateway calls, the dedup-ledger calls, the staging-directory
lifecycle (`tempCreated` = `mkdtemp` ran, `tempRemoved` = `shutil.rmtree` was
invoked on it before returning), the computed paths, and warning log lines
from ignored tracker-write failures. -/
structure Result where
  verdict : Bool
  inserts : Nat
  updProcessed : Nat
  updFailed : Nat
  fetchCalls : Nat
  uploadCalls : Nat
  dedupChecks : Nat
  dedupMarks : Nat
  tempCreated : Bool
  tempRemoved : Bool
  nasPath : Option String
  s3Key : Option String
  warnings : Nat
  deriving DecidableEq

/-- Translation of `FileTransferService.process_message`, branch for branch:

1. invalid message → return `True` before any write or gateway call;
2. `insert_created` (its bool result only drives a warning log);
3. build NAS and S3 paths (`build_s3_path` may raise `IndexError`, which
   falls to the outer handler: `update_failed`, return `False`);
4. `mkdtemp` + `copy_file_to_local`; `FileNotFoundError` → `update_failed`,
   remove the temp dir, return `True`; any other exception → outer handler
   removes the temp dir, `update_failed`, return `False`;
5. `upload_from_file` inside `try/finally` (the `finally` always removes the
   temp dir); an exception → outer handler, `update_failed`, return `False`;
6. success → `update_processed`, return `True`.

The `ok`/`notFound` fetch branches and the whole upload step translate the
handler structure as written; at run time only the `err` fetch outcome is
realizable (the `AttributeError` described at `FetchOutcome`), so for every
valid message that reaches step 4 the staged program takes the
outer-exception path: remove the temp dir, `update_failed`, return `False`.

No branch consults or updates the Redis dedup ledger: the source never calls
`RedisClient`. -/
def process_message (env : Environment) (message : Message) : Result :=
  if validate_message message then
    let w : Nat := if env.insertOk then 0 else 1
    let nas := build_nas_path message
    match build_s3_path env.folderName message env.now with
    | none =>
      { verdict := false, inserts := 1, updProcessed := 0, updFailed := 1,
        fetchCalls := 0, uploadCalls := 0, dedupChecks := 0, dedupMarks := 0,
        tempCreated := false, tempRemoved := false,
        nasPath := some nas, s3Key := none, warnings := w }
    | some s3p =>
      if env.mkdtempOk then
        match env.fetch with
        | .notFound =>
          { verdict := true, inserts := 1, updProcessed := 0, updFailed := 1,
            fetchCalls := 1, uploadCalls := 0, dedupChecks := 0, dedupMarks := 0,
            tempCreated := true, tempRemoved := true,
            nasPath := some nas, s3Key := some s3p, warnings := w }
        | .err =>
          { verdict := false, inserts := 1, updProcessed := 0, updFailed := 1,
            fetchCalls := 1, uploadCalls := 0, dedupChecks := 0, dedupMarks := 0,
            tempCreated := true, tempRemoved := true,
            nasPath := some nas, s3Key := some s3p, warnings := w }
        | .ok =>
          match env.upload with
          | .ok =>
            { verdict := true, inserts := 1, updProcessed := 1, updFailed := 0,
              fetchCalls := 1, uploadCalls := 1, dedupChecks := 0, dedupMarks := 0,
              tempCreated := true, tempRemoved := true,
              nasPath := some nas, s3Key := some s3p, warnings := w }
          | .err =>
            { verdict := false, inserts := 1, updProcessed := 0, updFailed := 1,
              fetchCalls := 1, uploadCalls := 1, dedupChecks := 0, dedupMarks := 0,
              tempCreated := true, tempRemoved := true,
              nasPath := some nas, s3Key := some s3p, warnings := w }
      else
        { verdict := false, inserts := 1, updProcessed := 0, updFailed := 1,
          fetchCalls := 0, uploadCalls := 0, dedupChecks := 0, dedupMarks := 0,
          tempCreated := false, tempRemoved := false,
          nasPath := some nas, s3Key := some s3p, warnings := w }
  else
    { verdict := true, inserts := 0, updProcessed := 0, updFailed := 0,
      fetchCalls := 0, uploadCalls := 0, dedupChecks := 0, dedupMarks := 0,
      tempCreated := false, tempRemoved := false,
      nasPath := none, s3Key := none, warnings := 0 }

/-- Redis key for a message id (`RedisClient._key_prefix` is `"processed:"`). -/
def redis_key (message_id : String) : String :=
  "processed:" ++ message_id

/-- Translation of `RedisClient.is_processed`: false when no client is reachable (fail-open),
else whether the prefixed key exists. -/
def is_processed (available : Bool) (store : List String) (message_id : String) :
    Bool :=
  available && store.contains (redis_key message_id)

/-- Translation of `RedisClient.mark_processed`: no-op when no client is reachable, else add
the prefixed key (the TTL is not modelled beyond the entry's existence). -/
def mark_processed (available : Bool) (store : List String) (message_id : String) :
    List String :=
  if available then redis_key message_id :: store else store

/-- Value bytes of one polled record in
`KafkaMessageConsumer.consume_and_process`.  The consumer is constructed
with a `value_deserializer` of `json.loads`, and kafka-python applies it
while materializing the batch inside `self._consumer.poll(...)` — so an
undecodable payload raises `json.JSONDecodeError` (a `ValueError`, not a
`KafkaError`) inside `poll()`, before the per-message `try` ever starts. -/
inductive RawValue
  | undecodable
  | decoded (message : Message)
  deriving DecidableEq

/-- How the handler call `handler(message_value, kafka_topic)` ends: a
returned boolean, a raised `json.JSONDecodeError`, or any other exception. -/
inductive HandlerOutcome
  | ret (value : Bool)
  | raiseJsonDecode
  | raiseOther
  deriving DecidableEq

/-- Fate of one polled record in `consume_and_process`: the loop terminates
with the exception escaping (`crashed`), `self._consumer.commit()` runs
(`committed`), or the loop moves on without committing (`notCommitted`). -/
inductive StepResult
  | crashed
  | committed
  | notCommitted
  deriving DecidableEq

/-- One record's trip through the consumption loop.  An undecodable value
raises inside `poll()`: `json.JSONDecodeError` is not a `KafkaError`, so it
escapes both the per-message `try` (which never starts) and the
`except KafkaError` around the poll, terminating `consume_and_process` with
nothing committed — the loop's `except json.JSONDecodeError` commit branch
is dead code for payloads and could only fire for a `json.JSONDecodeError`
raised by the handler itself (which would be committed).  A decoded value
reaches the handler: `True` commits the offset, `False` does not, and any
other exception falls to the generic handler, which does not commit. -/
def consume_step (value : RawValue) (handler : HandlerOutcome) : StepResult :=
  match value with
  | .undecodable => .crashed
  | .decoded _ =>
    match handler with
    | .ret true => .committed
    | .ret false => .notCommitted
    | .raiseJsonDecode => .committed
    | .raiseOther => .notCommitted

/-- The scenario message of the spec: `MESSAGE_ID` m1, `EVENT_TYPE` BOM,
`ST_BOM_DOC_PATH` share/folder, `ST_BOM_FILE_NAME` f.json, `EVENT_TIMESTAMP`
2025-01-15 10:00:00, every optional attribute absent. -/
def msgM1 : Message :=
  { MESSAGE_ID := some "m1", EVENT_TYPE := some "BOM",
    ST_BOM_DOC_PATH := some "share/folder", ST_BOM_FILE_NAME := some "f.json",
    ST_BOM_TYPE := none, IS_COSTED := none, OLP_PHASE := none,
    EVENT_TIMESTAMP := some "2025-01-15 10:00:00" }

/-- An environment in which every modelled call takes its written success
branch, with the default folder name and an empty dedup ledger.  The staged
program cannot realize `fetch = ok` (see `FetchOutcome`); this world is used
only where nothing past the validation step is reached. -/
def envAllOk : Environment :=
  { folderName := "dp03", now := ⟨2025, 3, 2⟩, mkdtempOk := true,
    fetch := .ok, upload := .ok, insertOk := true, updateProcessedOk := true,
    updateFailedOk := true, redisAvailable := true, redisStore := [] }

/-- The environment the staged program realizes for any message reaching the
fetch statement: the attribute lookup `self._nas.copy_file_to_local` raises
`AttributeError` (outcome `err`); every other dependency healthy. -/
def envFetchErr : Environment :=
  { envAllOk with fetch := .err }

example : validate_message msgM1 = true := by decide

example : build_s3_path "dp03" msgM1 ⟨2024, 7, 9⟩
    = some "dp03/BOM/UNKNOWN/UNKNOWN/UNKNOWN/2025/01/15/f.json" := by decide

example : (process_message envFetchErr msgM1).verdict = false := by decide

/-- The scenario message with the optional `EVENT_TIMESTAMP` absent. -/
def msgNoTs : Message :=
  { msgM1 with EVENT_TIMESTAMP := none }

/-- The scenario message with the required `ST_BOM_FILE_NAME` absent. -/
def msgNoFile : Message :=
  { msgM1 with ST_BOM_FILE_NAME := none }

/-- The realizable environment `envFetchErr` with a dedup entry already
present for m1. -/
def envDedupM1 : Environment :=
  { envFetchErr with redisStore := [redis_key "m1"] }

/-- C1 counterexample, at a trace the staged program realizes: with the
dedup entry for m1 present in the ledger (`is_processed` answers true),
`process_message` still writes one tracker insert and one terminal Failed
update — new ledger writes — and returns False (NACK), not the claimed ACK
with zero additional store calls. -/
theorem C1_dedup_entry_counterexample :
    is_processed envDedupM1.redisAvailable envDedupM1.redisStore "m1" = true ∧
    (process_message envDedupM1 msgM1).verdict = false ∧
    (process_message envDedupM1 msgM1).inserts = 1 ∧
    (process_message envDedupM1 msgM1).updFailed = 1 := by
  decide

/-- C1 (amended): `process_message` never consults or updates the dedup
ledger — its entire result is invariant under the Redis state, and it makes
zero dedup-ledger calls; a replayed event whose id has a dedup entry is
handled exactly like a fresh one, which in the staged program means a
tracker insert, an `AttributeError` at the fetch statement, a best-effort
terminal Failed write, and the NACK verdict. -/
theorem C1_dedup_ledger_ignored :
    (∀ (env : Environment) (msg : Message) (a : Bool) (s : List String),
      process_message { env with redisAvailable := a, redisStore := s } msg
        = process_message env msg) ∧
    (∀ (env : Environment) (msg : Message),
      (process_message env msg).dedupChecks = 0 ∧
      (process_message env msg).dedupMarks = 0) := by
  constructor
  · intro env msg a s
    obtain ⟨fn, nw, mo, fe, up, io, po, fo, ra, rs⟩ := env
    rfl
  · intro env msg
    obtain ⟨fn, nw, mo, fe, up, io, po, fo, ra, rs⟩ := env
    cases hv : validate_message msg <;>
      cases hps : build_s3_path fn msg nw <;>
        cases mo <;> cases fe <;> cases up <;>
          simp [process_message, hv, hps]

/-- C2 counterexample: an undecodable payload is never committed to skip —
the decode error is raised inside `poll()` by the value deserializer and
terminates the loop, so the record's fate is `crashed`, not `committed`. -/
theorem C2_undecodable_crashes_counterexample :
    consume_step RawValue.undecodable (HandlerOutcome.ret true)
      = StepResult.crashed ∧
    StepResult.crashed ≠ StepResult.committed := by
  decide

/-- C2 (amended): the offset is never committed before the handler signals
success — for decoded values the commit happens exactly when the handler
(`process_message`, which always returns a boolean) returns True, and never
when it returns False or raises a non-JSONDecodeError exception; an
undecodable payload is not committed either: it crashes the consumption
loop from inside `poll()` (the loop's except-JSONDecodeError commit branch
being dead code for payloads). -/
theorem C2_commit_only_after_success :
    (∀ (env : Environment) (msg : Message),
      consume_step (RawValue.decoded msg)
          (HandlerOutcome.ret (process_message env msg).verdict)
        = (if (process_message env msg).verdict then StepResult.committed
            else StepResult.notCommitted)) ∧
    (∀ msg : Message,
      consume_step (RawValue.decoded msg) (HandlerOutcome.ret false)
        = StepResult.notCommitted) ∧
    (∀ msg : Message,
      consume_step (RawValue.decoded msg) HandlerOutcome.raiseOther
        = StepResult.notCommitted) ∧
    (∀ h : HandlerOutcome,
      consume_step RawValue.undecodable h = StepResult.crashed) := by
  refine ⟨?_, fun _ => rfl, fun _ => rfl, fun _ => rfl⟩
  intro env msg
  cases h : (process_message env msg).verdict <;> simp [consume_step, h]

/-- C3: the staged program evaluated at the claim's failing input — the
scenario message in the realizable world.  The destination key is computed
exactly as the claim states, but the attempt then raises `AttributeError`
at the fetch statement (`copy_file_to_local` does not exist), so the verdict
is NACK, the tracker row ends Failed (never Processed), and no upload and
no dedup-ledger write occur: the claimed ACK/Processed success path is
unreachable. -/
theorem C3_success_unreachable :
    (process_message envFetchErr msgM1).verdict = false ∧
    (process_message envFetchErr msgM1).updProcessed = 0 ∧
    (process_message envFetchErr msgM1).updFailed = 1 ∧
    (process_message envFetchErr msgM1).uploadCalls = 0 ∧
    (process_message envFetchErr msgM1).dedupMarks = 0 ∧
    (process_message envFetchErr msgM1).s3Key
      = some "dp03/BOM/UNKNOWN/UNKNOWN/UNKNOWN/2025/01/15/f.json" := by
  decide

/-- C4: the upload call site is dead code.  In every environment the staged
program can realize (the fetch statement raises `AttributeError`, outcome
`err`), no upload is ever performed and no Processed status is ever written,
so the claim's fetch-succeeds/upload-raises scenario cannot occur. -/
theorem C4_upload_site_dead :
    ∀ (env : Environment) (msg : Message),
      env.fetch = FetchOutcome.err →
      (process_message env msg).uploadCalls = 0 ∧
      (process_message env msg).updProcessed = 0 := by
  intro env msg hf
  obtain ⟨fn, nw, mo, fe, up, io, po, fo, ra, rs⟩ := env
  dsimp only at hf
  subst hf
  cases hv : validate_message msg <;>
    cases hps : build_s3_path fn msg nw <;>
      cases mo <;>
        simp [process_message, hv, hps]

/-- C4 witness: the theorem applied to the realizable environment and the
scenario message. -/
theorem C4_upload_site_dead_witness :
    envFetchErr.fetch = FetchOutcome.err ∧
    ((process_message envFetchErr msgM1).uploadCalls = 0 ∧
      (process_message envFetchErr msgM1).updProcessed = 0) :=
  ⟨rfl, C4_upload_site_dead envFetchErr msgM1 rfl⟩

/-- C5: a valid message whose source file is missing is NACKed, not ACKed.
The `AttributeError` at the fetch statement precedes any path resolution, so
the `except FileNotFoundError` handler is dead code and in every realizable
environment a valid message that reaches the attempt gets verdict False with
one best-effort Failed write — the opposite of the claimed skip-ACK. -/
theorem C5_missing_file_nacked :
    ∀ (env : Environment) (msg : Message),
      env.fetch = FetchOutcome.err →
      validate_message msg = true →
      (build_s3_path env.folderName msg env.now).isSome = true →
      env.mkdtempOk = true →
      (process_message env msg).verdict = false ∧
      (process_message env msg).updFailed = 1 := by
  intro env msg hf hv hp hm
  obtain ⟨fn, nw, mo, fe, up, io, po, fo, ra, rs⟩ := env
  dsimp only at hf hp hm
  subst hf; subst hm
  cases hps : build_s3_path fn msg nw with
  | none => rw [hps] at hp; simp at hp
  | some s3p => simp [process_message, hv, hps]

/-- C5 witness: the theorem applied to the realizable environment and the
scenario message. -/
theorem C5_missing_file_nacked_witness :
    envFetchErr.fetch = FetchOutcome.err ∧ validate_message msgM1 = true ∧
    (build_s3_path envFetchErr.folderName msgM1 envFetchErr.now).isSome = true ∧
    envFetchErr.mkdtempOk = true ∧
    ((process_message envFetchErr msgM1).verdict = false ∧
      (process_message envFetchErr msgM1).updFailed = 1) :=
  ⟨rfl, by decide, by decide, rfl,
    C5_missing_file_nacked envFetchErr msgM1 rfl (by decide) (by decide) rfl⟩

/-- C6: a message with any required field missing or empty is acknowledged
as a skip with zero tracker writes, zero fetches, zero uploads and no
staging directory. -/
theorem C6_invalid_message_no_side_effects :
    ∀ (env : Environment) (msg : Message),
      (truthy msg.MESSAGE_ID = false ∨ truthy msg.EVENT_TYPE = false ∨
        truthy msg.ST_BOM_DOC_PATH = false ∨ truthy msg.ST_BOM_FILE_NAME = false) →
      (process_message env msg).verdict = true ∧
      (process_message env msg).inserts = 0 ∧
      (process_message env msg).updProcessed = 0 ∧
      (process_message env msg).updFailed = 0 ∧
      (process_message env msg).fetchCalls = 0 ∧
      (process_message env msg).uploadCalls = 0 ∧
      (process_message env msg).tempCreated = false := by
  intro env msg h
  have hv : validate_message msg = false := by
    unfold validate_message
    rcases h with h | h | h | h <;> simp [h]
  simp [process_message, hv]

/-- C6 witness: the theorem applied to the scenario message with
`ST_BOM_FILE_NAME` removed. -/
theorem C6_invalid_message_no_side_effects_witness :
    truthy msgNoFile.ST_BOM_FILE_NAME = false ∧
    ((process_message envAllOk msgNoFile).verdict = true ∧
      (process_message envAllOk msgNoFile).inserts = 0 ∧
      (process_message envAllOk msgNoFile).updProcessed = 0 ∧
      (process_message envAllOk msgNoFile).updFailed = 0 ∧
      (process_message envAllOk msgNoFile).fetchCalls = 0 ∧
      (process_message envAllOk msgNoFile).uploadCalls = 0 ∧
      (process_message envAllOk msgNoFile).tempCreated = false) :=
  ⟨by decide,
    C6_invalid_message_no_side_effects envAllOk msgNoFile
      (Or.inr (Or.inr (Or.inr (by decide))))⟩

/-- C7: the verdict and the transfer activity (gateway calls and terminal
write counts) do not depend on whether the tracker writes succeed: flipping
the boolean results of `insert_created`, `update_processed` and
`update_failed` changes nothing but a warning log line. -/
theorem C7_verdict_independent_of_tracker_writes :
    ∀ (env : Environment) (msg : Message) (i p f : Bool),
      (process_message
          { env with insertOk := i, updateProcessedOk := p, updateFailedOk := f }
          msg).verdict
        = (process_message env msg).verdict ∧
      (process_message
          { env with insertOk := i, updateProcessedOk := p, updateFailedOk := f }
          msg).fetchCalls
        = (process_message env msg).fetchCalls ∧
      (process_message
          { env with insertOk := i, updateProcessedOk := p, updateFailedOk := f }
          msg).uploadCalls
        = (process_message env msg).uploadCalls ∧
      (process_message
          { env with insertOk := i, updateProcessedOk := p, updateFailedOk := f }
          msg).updProcessed
        = (process_message env msg).updProcessed ∧
      (process_message
          { env with insertOk := i, updateProcessedOk := p, updateFailedOk := f }
          msg).updFailed
        = (process_message env msg).updFailed := by
  intro env msg i p f
  obtain ⟨fn, nw, mo, fe, up, io, po, fo, ra, rs⟩ := env
  cases hv : validate_message msg <;>
    cases hps : build_s3_path fn msg nw <;>
      cases mo <;> cases fe <;> cases up <;>
        simp [process_message, hv, hps]

/-- C8: the staging directory is removed on every exit path: in every
environment and for every message, removal was invoked exactly when the
directory was created, so no staging artifact survives the attempt. -/
theorem C8_staging_removed_on_every_exit :
    ∀ (env : Environment) (msg : Message),
      (process_message env msg).tempRemoved = (process_message env msg).tempCreated := by
  intro env msg
  obtain ⟨fn, nw, mo, fe, up, io, po, fo, ra, rs⟩ := env
  cases hv : validate_message msg <;>
    cases hps : build_s3_path fn msg nw <;>
      cases mo <;> cases fe <;> cases up <;>
        simp [process_message, hv, hps]

/-- C9 counterexample: with `EVENT_TIMESTAMP` absent the key construction
reads the clock, so two calls with identical event attributes on consecutive
days return different keys. -/
theorem C9_clock_fallback_counterexample :
    build_s3_path "dp03" msgNoTs ⟨2025, 1, 15⟩
      ≠ build_s3_path "dp03" msgNoTs ⟨2025, 1, 16⟩ := by
  decide

/-- C9 (amended): whenever `EVENT_TIMESTAMP` is present, non-empty and its
first token parses as a date, the key does not depend on the clock, so
repeated calls with identical event attributes return the identical string. -/
theorem C9_key_deterministic_with_timestamp :
    ∀ (folder : String) (msg : Message) (d1 d2 : Date),
      ts_determinate msg = true →
      build_s3_path folder msg d1 = build_s3_path folder msg d2 := by
  intro folder msg d1 d2 h
  simp only [ts_determinate] at h
  cases he : (msg.EVENT_TIMESTAMP.getD "" == "")
  · rw [he] at h
    simp only [Bool.false_eq_true, if_false] at h
    cases hft : firstToken (msg.EVENT_TIMESTAMP.getD "")
    · rw [hft] at h; simp at h
    · rename_i tok
      rw [hft] at h
      dsimp only at h
      cases hpd : parseDate tok
      · rw [hpd] at h; simp at h
      · simp [build_s3_path, he, hft, hpd]
  · rw [he] at h; simp at h

/-- C9 witness: the amended theorem at the scenario message and two distinct
dates. -/
theorem C9_key_deterministic_with_timestamp_witness :
    ts_determinate msgM1 = true ∧
    build_s3_path "dp03" msgM1 ⟨2025, 1, 15⟩ = build_s3_path "dp03" msgM1 ⟨2025, 1, 16⟩ :=
  ⟨by decide,
    C9_key_deterministic_with_timestamp "dp03" msgM1 ⟨2025, 1, 15⟩ ⟨2025, 1, 16⟩
      (by decide)⟩

/-- C10: `process_message` is total — it returns a verdict in every
environment; the verdict is False only when a client raised (path build,
mkdtemp, fetch, or upload), and for a valid message every unexpected client
exception is converted into the no-commit verdict False. -/
theorem C10_exceptions_become_nack :
    ∀ (env : Environment) (msg : Message),
      ((process_message env msg).verdict = false →
        build_s3_path env.folderName msg env.now = none ∨
          env.mkdtempOk = false ∨ env.fetch = FetchOutcome.err ∨
          env.upload = UploadOutcome.err) ∧
      (validate_message msg = true →
        (env.fetch = FetchOutcome.err ∨
          (env.fetch = FetchOutcome.ok ∧ env.upload = UploadOutcome.err)) →
        (process_message env msg).verdict = false) := by
  intro env msg
  obtain ⟨fn, nw, mo, fe, up, io, po, fo, ra, rs⟩ := env
  cases hv : validate_message msg <;>
    cases hps : build_s3_path fn msg nw <;>
      cases mo <;> cases fe <;> cases up <;>
        simp [process_message, hv, hps]

/-- C10 witness: the theorem applied to the fetch-raises environment and the
scenario message. -/
theorem C10_exceptions_become_nack_witness :
    validate_message msgM1 = true ∧
    (process_message envFetchErr msgM1).verdict = false :=
  ⟨by decide,
    (C10_exceptions_become_nack envFetchErr msgM1).2 (by decide) (Or.inl rfl)⟩
